import Mathlib

/-!
Shallow embedding of the core of the vscode-extension-searcheverywhere
repository: the SearchService object-catalog cache, the ColumnService
column-metadata cache, the ConnectionService session cache and the
ScriptingService action dispatch, translated from the TypeScript sources.

JavaScript strings are modelled as Lean strings; JS `undefined`
is modelled with Option; a thrown exception from a collaborator is
modelled with Except.  JS truthiness on strings (empty string is falsy)
is modelled explicitly wherever the source relies on it.
-/

/-- The six object types of src/models/databaseObject.ts. -/
inductive DatabaseObjectType where
  | Table
  | View
  | StoredProcedure
  | ScalarValuedFunction
  | TableValuedFunction
  | Synonym
  deriving DecidableEq, Repr

/-- The six actions of src/models/databaseObject.ts (ObjectAction). -/
inductive ObjectAction where
  | Select
  | Create
  | Delete
  | Execute
  | Alter
  | InsertName
  deriving DecidableEq, Repr

/-- DatabaseObjectItem of src/models/databaseObject.ts. -/
structure DatabaseObjectItem where
  name : String
  schema : String
  type : DatabaseObjectType
  database : Option String
  columns : Option String
  definition : Option String
  deriving DecidableEq, Repr

/-- JS `v || d` on a possibly-undefined string: undefined and the empty
string are falsy and give the default. -/
def jsOrString (v : Option String) (d : String) : String :=
  match v with
  | none => d
  | some s => if s = "" then d else s

/-- Whitespace test used by the JS regex class backslash-s and by trim
(ASCII part). -/
def isWsChar (c : Char) : Bool :=
  c = ' ' || c = '\t' || c = '\n' || c = '\r' || c = '\x0b' || c = '\x0c'

/-- Digit test of the JS regex class backslash-d. -/
def isDigitChar (c : Char) : Bool :=
  c.isDigit

/-- JS String.prototype.toLowerCase (ASCII-faithful, per character). -/
def lowerStr (s : String) : String :=
  String.mk (s.data.map Char.toLower)

/-- JS String.prototype.trim. -/
def jsTrim (s : String) : String :=
  String.mk (((s.data.dropWhile isWsChar).reverse.dropWhile isWsChar).reverse)

/-- pat occurs as a contiguous infix of hay. -/
def listHasInfix (pat hay : List Char) : Bool :=
  match hay with
  | [] => pat.isEmpty
  | _ :: t => pat.isPrefixOf hay || listHasInfix pat t

/-- JS String.prototype.includes. -/
def jsIncludes (hay pat : String) : Bool :=
  listHasInfix pat.data hay.data

/-- JS Map.get on an insertion-ordered association list. -/
def mapLookup {α : Type} (m : List (String × α)) (k : String) : Option α :=
  match m with
  | [] => none
  | (k2, v2) :: rest => if k2 = k then some v2 else mapLookup rest k

/-- JS Map.set: update in place when the key exists, else append. -/
def mapSet {α : Type} (m : List (String × α)) (k : String) (v : α) :
    List (String × α) :=
  match m with
  | [] => [(k, v)]
  | (k2, v2) :: rest =>
    if k2 = k then (k, v) :: rest else (k2, v2) :: mapSet rest k v

/-! ## ScriptingService (src/unnamed/part_001) -/

/-- ScriptingService.getQualifiedName. -/
def getQualifiedName (o : DatabaseObjectItem) : String :=
  "[" ++ o.schema ++ "].[" ++ o.name ++ "]"

/-- Case-insensitive literal match: pat (given lowercase) against the
front of l; returns the consumed actual characters and the rest. -/
def ciMatch : List Char → List Char → Option (List Char × List Char)
  | [], l => some ([], l)
  | _ :: _, [] => none
  | p :: ps, c :: cs =>
    if c.toLower = p then
      match ciMatch ps cs with
      | some (t, r) => some (c :: t, r)
      | none => none
    else none

/-- The alternation of the TOP-clause regexes: a parenthesized digit run
or a bare digit run, with the JS greedy semantics.  Returns the rest of
the input after the match. -/
def matchNumAfterTop (l : List Char) : Option (List Char) :=
  if l.head? = some '(' then
    match l with
    | [] => none
    | _ :: rest =>
      let r1 := rest.dropWhile isWsChar
      let ds := r1.takeWhile isDigitChar
      let r2 := r1.dropWhile isDigitChar
      if ds.isEmpty then none
      else
        let r3 := r2.dropWhile isWsChar
        if r3.head? = some ')' then some (r3.tail) else none
  else
    let ds := l.takeWhile isDigitChar
    if ds.isEmpty then none else some (l.dropWhile isDigitChar)

/-- Match of the regex (SELECT blank-plus)TOP blank-star (paren-num or num),
case-insensitive, at the front of l; returns (capture group 1, rest after
the whole match). -/
def matchSelTopAt (l : List Char) : Option (List Char × List Char) :=
  match ciMatch "select".data l with
  | none => none
  | some (selChars, r1) =>
    let ws1 := r1.takeWhile isWsChar
    let r2 := r1.dropWhile isWsChar
    if ws1.isEmpty then none
    else
      match ciMatch "top".data r2 with
      | none => none
      | some (_, r3) =>
        match matchNumAfterTop (r3.dropWhile isWsChar) with
        | none => none
        | some rest => some (selChars ++ ws1, rest)

/-- JS RegExp.prototype.test for the SELECT-TOP regex (a match anywhere:
the scan tries every start position, leftmost first). -/
def testSelTop : List Char → Bool
  | [] => false
  | c :: cs => (matchSelTopAt (c :: cs)).isSome || testSelTop cs

/-- JS String.prototype.replace (leftmost match only) for the
SELECT-TOP regex, with replacement group-1 followed by rep. -/
def replaceSelTop : List Char → List Char → List Char
  | [], _ => []
  | c :: cs, rep =>
    match matchSelTopAt (c :: cs) with
    | some (g1, rest) => g1 ++ rep ++ rest
    | none => c :: replaceSelTop cs rep

/-- Match of the anchored regex caret(blank-star SELECT blank-plus),
case-insensitive; returns (capture group 1, rest). -/
def matchLeadSelect (l : List Char) : Option (List Char × List Char) :=
  let ws0 := l.takeWhile isWsChar
  let r0 := l.dropWhile isWsChar
  match ciMatch "select".data r0 with
  | none => none
  | some (selChars, r1) =>
    let ws1 := r1.takeWhile isWsChar
    let r2 := r1.dropWhile isWsChar
    if ws1.isEmpty then none else some (ws0 ++ selChars ++ ws1, r2)

/-- ScriptingService.ensureTopClause. -/
def ensureTopClause (script : String) (rowLimit : Nat) : String :=
  if testSelTop script.data then
    String.mk (replaceSelTop script.data ("TOP " ++ toString rowLimit).data)
  else
    match matchLeadSelect script.data with
    | some (g1, rest) =>
      String.mk (g1 ++ ("TOP " ++ toString rowLimit ++ " ").data ++ rest)
    | none => script

/-- ScriptingService.generateSelectScript, with the backend scriptObject
call abstracted as its outcome (throw, undefined, or a script). -/
def generateSelectScript (backend : Except String (Option String))
    (rowLimit : Nat) (o : DatabaseObjectItem) : String :=
  match backend with
  | Except.ok (some script) =>
    if script = "" then
      "-- Could not generate SELECT script for " ++ getQualifiedName o ++
        "\nSELECT * FROM " ++ getQualifiedName o ++ ";\n"
    else ensureTopClause script rowLimit
  | Except.ok none =>
    "-- Could not generate SELECT script for " ++ getQualifiedName o ++
      "\nSELECT * FROM " ++ getQualifiedName o ++ ";\n"
  | Except.error _ =>
    "SELECT TOP " ++ toString rowLimit ++ " *\nFROM " ++
      getQualifiedName o ++ ";\n"

/-- ScriptingService.generateExecuteScript. -/
def generateExecuteScript (backend : Except String (Option String))
    (o : DatabaseObjectItem) : String :=
  match backend with
  | Except.ok (some script) =>
    if script = "" then
      "EXEC " ++ getQualifiedName o ++ ";\n-- Specify parameters if required\n"
    else script
  | Except.ok none =>
    "EXEC " ++ getQualifiedName o ++ ";\n-- Specify parameters if required\n"
  | Except.error _ =>
    "EXEC " ++ getQualifiedName o ++ ";\n-- Specify parameters if required\n"

/-- ScriptingService.generateCreateScript. -/
def generateCreateScript (backend : Except String (Option String))
    (o : DatabaseObjectItem) : String :=
  match backend with
  | Except.ok (some script) =>
    if script = "" then
      "-- Could not generate CREATE script for " ++ getQualifiedName o ++ "\n"
    else script
  | Except.ok none =>
    "-- Could not generate CREATE script for " ++ getQualifiedName o ++ "\n"
  | Except.error _ =>
    "-- Error generating CREATE script for " ++ getQualifiedName o ++ "\n"

/-- ScriptingService.generateDeleteScript. -/
def generateDeleteScript (backend : Except String (Option String))
    (o : DatabaseObjectItem) : String :=
  match backend with
  | Except.ok (some script) =>
    if script = "" then
      "-- Could not generate DELETE script for " ++ getQualifiedName o ++ "\n"
    else script
  | Except.ok none =>
    "-- Could not generate DELETE script for " ++ getQualifiedName o ++ "\n"
  | Except.error _ =>
    "DELETE FROM " ++ getQualifiedName o ++ "\nWHERE\n  -- Specify condition;\n"

/-- ScriptingService.generateAlterScriptViaApi. -/
def generateAlterScript (backend : Except String (Option String))
    (o : DatabaseObjectItem) : String :=
  match backend with
  | Except.ok (some script) =>
    if script = "" then
      "-- Could not generate ALTER script for " ++ getQualifiedName o ++ "\n"
    else script
  | Except.ok none =>
    "-- Could not generate ALTER script for " ++ getQualifiedName o ++ "\n"
  | Except.error _ =>
    "-- Could not generate ALTER script for " ++ getQualifiedName o ++ "\n"

/-- Environment of ScriptingService.generateScript: the configured action
per type, the configured row limit, and the outcome of the backend
scriptObject call per operation code. -/
structure ScriptingEnv where
  actionForType : DatabaseObjectType → ObjectAction
  scriptRowLimit : Nat
  backend : Nat → Except String (Option String)

/-- ScriptingService.generateScript; the second component counts the
invocations of the backend scripting collaborator (connectionService
scriptObject). -/
def generateScript (env : ScriptingEnv) (o : DatabaseObjectItem) :
    String × Nat :=
  match env.actionForType o.type with
  | ObjectAction.Select =>
    (generateSelectScript (env.backend 0) env.scriptRowLimit o, 1)
  | ObjectAction.Create => (generateCreateScript (env.backend 1) o, 1)
  | ObjectAction.Delete => (generateDeleteScript (env.backend 4) o, 1)
  | ObjectAction.Execute => (generateExecuteScript (env.backend 5) o, 1)
  | ObjectAction.Alter => (generateAlterScript (env.backend 6) o, 1)
  | ObjectAction.InsertName => (getQualifiedName o, 0)

/-! ## SearchService (src/CHANGELOG.md embedded source: searchService.ts) -/

/-- Raw row of the bulk catalog query (DatabaseObjectQueryResult); a
missing field is modelled with none, JS null likewise. -/
structure DatabaseObjectQueryResult where
  SchemaName : Option String
  ObjectName : Option String
  ObjectType : Option String
  deriving DecidableEq, Repr

/-- SearchService.mapObjectType: unknown (or missing) type codes default
to Table. -/
def mapObjectType (t : Option String) : DatabaseObjectType :=
  match t with
  | some "TABLE" => DatabaseObjectType.Table
  | some "USER_TABLE" => DatabaseObjectType.Table
  | some "VIEW" => DatabaseObjectType.View
  | some "SQL_STORED_PROCEDURE" => DatabaseObjectType.StoredProcedure
  | some "SQL_SCALAR_FUNCTION" => DatabaseObjectType.ScalarValuedFunction
  | some "SQL_INLINE_TABLE_VALUED_FUNCTION" => DatabaseObjectType.TableValuedFunction
  | some "SQL_TABLE_VALUED_FUNCTION" => DatabaseObjectType.TableValuedFunction
  | _ => DatabaseObjectType.Table

/-- SearchService.transformResult. -/
def transformResult (row : DatabaseObjectQueryResult)
    (database : Option String) : DatabaseObjectItem :=
  { name := jsOrString row.ObjectName ""
    schema := jsOrString row.SchemaName "dbo"
    type := mapObjectType row.ObjectType
    database := database
    columns := none
    definition := none }

/-- The per-database object catalog cache (Map of SearchService
objectsCache). -/
abbrev CatalogCache : Type :=
  List (String × List DatabaseObjectItem)

/-- SearchService.getOrFetchObjects, with the executeQueryWithDatabase
call abstracted as its outcome.  Returns (result or thrown error, cache
after the call, whether the fetch query was invoked). -/
def getOrFetchObjects (cache : CatalogCache) (cacheKey : String)
    (database : Option String)
    (fetchOutcome : Except String (Option (List DatabaseObjectQueryResult))) :
    Except String (List DatabaseObjectItem) × CatalogCache × Bool :=
  match mapLookup cache cacheKey with
  | some cached => (Except.ok cached, cache, false)
  | none =>
    match fetchOutcome with
    | Except.error e => (Except.error e, cache, true)
    | Except.ok none => (Except.ok [], cache, true)
    | Except.ok (some rows) =>
      if rows.isEmpty then (Except.ok [], cache, true)
      else
        let objects := rows.map (fun r => transformResult r database)
        (Except.ok objects, mapSet cache cacheKey objects, true)

/-- The cache key of SearchService.search: the active database name or
the sentinel default. -/
def cacheKeyOf (database : Option String) : String :=
  match database with
  | some d => d
  | none => "default"

/-- The filter predicate of SearchService.search step 5. -/
def matchesSearchTerm (searchTerm : String) (o : DatabaseObjectItem) : Bool :=
  jsIncludes (lowerStr o.name) (lowerStr searchTerm) ||
    jsIncludes (lowerStr o.schema) (lowerStr searchTerm)

/-- User-visible signals raised by SearchService.search through
ErrorHandler. -/
inductive SearchEffect where
  | noConnectionSignal
  | searchFailedSignal
  deriving DecidableEq, Repr

/-- Environment of one SearchService.search call: the outcome of each
awaited collaborator step (Except.error models a thrown exception). -/
structure SearchEnv where
  getUri : Except String (Option String)
  getDb : Except String (Option String)
  fetch : Except String (Option (List DatabaseObjectQueryResult))
  includeColumns : Except String Bool
  enrich : String → List DatabaseObjectItem →
    Except String (List DatabaseObjectItem)

/-- Body of SearchService.search (the code inside its try block); a
thrown exception carries the catalog cache as mutated so far. -/
def searchBody (env : SearchEnv) (cache0 : CatalogCache)
    (searchTerm : String) (clearCache : Bool) :
    Except CatalogCache
      (List DatabaseObjectItem × CatalogCache × List SearchEffect) :=
  match env.getUri with
  | Except.error _ => Except.error cache0
  | Except.ok none =>
    Except.ok ([], cache0, [SearchEffect.noConnectionSignal])
  | Except.ok (some uri) =>
    match env.getDb with
    | Except.error _ => Except.error cache0
    | Except.ok database =>
      let cache1 : CatalogCache := if clearCache then [] else cache0
      match getOrFetchObjects cache1 (cacheKeyOf database) database env.fetch with
      | (Except.error _, cache2, _) => Except.error cache2
      | (Except.ok objects0, cache2, _) =>
        let objects1 :=
          if jsTrim searchTerm = "" then objects0
          else objects0.filter (matchesSearchTerm searchTerm)
        match env.includeColumns with
        | Except.error _ => Except.error cache2
        | Except.ok false => Except.ok (objects1, cache2, [])
        | Except.ok true =>
          match env.enrich uri objects1 with
          | Except.error _ => Except.error cache2
          | Except.ok objects2 => Except.ok (objects2, cache2, [])

/-- SearchService.search: the try/catch boundary around searchBody; a
thrown exception is handled (logged and surfaced) and yields an empty
result. -/
def search (env : SearchEnv) (cache0 : CatalogCache) (searchTerm : String)
    (clearCache : Bool) :
    List DatabaseObjectItem × CatalogCache × List SearchEffect :=
  match searchBody env cache0 searchTerm clearCache with
  | Except.ok r => r
  | Except.error c => ([], c, [SearchEffect.searchFailedSignal])

/-! ## ColumnService (src/unnamed/part_000) -/

/-- Raw row of the bulk column query. -/
structure ColumnQueryResult where
  SchemaName : String
  ObjectName : String
  ObjectType : String
  Columns : Option String
  deriving DecidableEq, Repr

/-- The loop of ColumnService.fetchColumns: build the
schema.object-to-columns map, later rows overwriting earlier ones. -/
def buildColumnMap (rows : List ColumnQueryResult) :
    List (String × String) :=
  rows.foldl
    (fun m row =>
      mapSet m (row.SchemaName ++ "." ++ row.ObjectName)
        (jsOrString row.Columns ""))
    []

/-- ColumnService.fetchColumns: a thrown backend error and an
empty/undefined result both yield undefined (nothing to cache). -/
def fetchColumns
    (queryOutcome : Except String (Option (List ColumnQueryResult))) :
    Option (List (String × String)) :=
  match queryOutcome with
  | Except.error _ => none
  | Except.ok none => none
  | Except.ok (some rows) =>
    if rows.isEmpty then none else some (buildColumnMap rows)

/-- The per-object enrichment map step of ColumnService.enrichWithColumns;
an empty columns string is falsy in JS, so it does not attach. -/
def enrichOne (columnMap : List (String × String))
    (obj : DatabaseObjectItem) : DatabaseObjectItem :=
  if obj.type = DatabaseObjectType.Table ∨ obj.type = DatabaseObjectType.View
  then
    match mapLookup columnMap (obj.schema ++ "." ++ obj.name) with
    | some cols =>
      if cols = "" then obj else { obj with columns := some cols }
    | none => obj
  else obj

/-- The column cache of ColumnService, keyed by connection URI. -/
abbrev ColumnCache : Type :=
  List (String × List (String × String))

/-- ColumnService.enrichWithColumns, with the bulk column query
abstracted as its outcome.  Returns (enriched objects, cache after the
call, whether the bulk fetch was attempted). -/
def enrichWithColumns (colCache : ColumnCache) (uri : String)
    (objects : List DatabaseObjectItem)
    (queryOutcome : Except String (Option (List ColumnQueryResult))) :
    List DatabaseObjectItem × ColumnCache × Bool :=
  let tablesAndViews := objects.filter (fun o =>
    o.type = DatabaseObjectType.Table ∨ o.type = DatabaseObjectType.View)
  if tablesAndViews.isEmpty then (objects, colCache, false)
  else
    match mapLookup colCache uri with
    | some m => (objects.map (enrichOne m), colCache, false)
    | none =>
      match fetchColumns queryOutcome with
      | none => (objects, colCache, true)
      | some m =>
        (objects.map (enrichOne m), mapSet colCache uri m, true)

/-! ## ConnectionService (src/unnamed/part_002) -/

/-- The mutable connection cache fields of ConnectionService. -/
structure ConnState where
  cachedConnectionUri : Option String
  cachedConnectionId : Option String
  cachedDatabase : Option String
  scriptingUriCache : List (String × String)
  deriving DecidableEq, Repr

/-- Collaborator responses for one getCurrentConnectionUri call. -/
structure ConnEnv where
  activeEditorConnectionId : Option String
  activeDatabase : Option String
  connectUri : Option String
  deriving DecidableEq, Repr

/-- ConnectionService.clearConnectionCache. -/
def clearConnectionCache (_st : ConnState) : ConnState :=
  { cachedConnectionUri := none
    cachedConnectionId := none
    cachedDatabase := none
    scriptingUriCache := [] }

/-- ConnectionService.getCurrentConnectionUri.  Returns (uri result,
state after the call, whether connectionSharing.connect was invoked). -/
def getCurrentConnectionUri (env : ConnEnv) (st : ConnState) :
    Option String × ConnState × Bool :=
  match env.activeEditorConnectionId with
  | none => (none, clearConnectionCache st, false)
  | some connectionId =>
    if st.cachedConnectionUri.isSome ∧
        st.cachedConnectionId = some connectionId ∧
        st.cachedDatabase = env.activeDatabase then
      (st.cachedConnectionUri, st, false)
    else
      match env.connectUri with
      | some uri =>
        (some uri,
          { st with
              cachedConnectionUri := some uri
              cachedConnectionId := some connectionId
              cachedDatabase := env.activeDatabase },
          true)
      | none => (none, st, true)

/-! ## Helper lemmas -/

/-- mapSet stores the value retrievably under its key. -/
theorem mapLookup_mapSet {α : Type} (m : List (String × α)) (k : String)
    (v : α) : mapLookup (mapSet m k v) k = some v := by
  induction m with
  | nil => simp [mapSet, mapLookup]
  | cons hd tl ih =>
    obtain ⟨k2, v2⟩ := hd
    by_cases hk : k2 = k
    · simp [mapSet, mapLookup, hk]
    · simp [mapSet, mapLookup, hk, ih]

/-- After a getCurrentConnectionUri call that saw an active connection id
and a successful connect collaborator, the state caches the pair and the
returned uri is the cached one. -/
theorem getCurrentConnectionUri_caches (env : ConnEnv) (st : ConnState)
    (cid uri : String) (h1 : env.activeEditorConnectionId = some cid)
    (h2 : env.connectUri = some uri) :
    ((getCurrentConnectionUri env st).2.1).cachedConnectionUri.isSome = true ∧
    ((getCurrentConnectionUri env st).2.1).cachedConnectionId = some cid ∧
    ((getCurrentConnectionUri env st).2.1).cachedDatabase
      = env.activeDatabase ∧
    (getCurrentConnectionUri env st).1
      = ((getCurrentConnectionUri env st).2.1).cachedConnectionUri := by
  unfold getCurrentConnectionUri
  rw [h1]
  by_cases hc : st.cachedConnectionUri.isSome = true ∧
      st.cachedConnectionId = some cid ∧
      st.cachedDatabase = env.activeDatabase
  · simp only [hc]
    simp [hc.1, hc.2.1, hc.2.2]
  · simp only [if_neg hc, h2]
    simp

/-- One getCurrentConnectionUri call whose cache check succeeds reuses
the cached uri without connecting. -/
theorem getCurrentConnectionUri_hit (env : ConnEnv) (st : ConnState)
    (cid : String) (h1 : env.activeEditorConnectionId = some cid)
    (hSome : st.cachedConnectionUri.isSome = true)
    (hId : st.cachedConnectionId = some cid)
    (hDb : st.cachedDatabase = env.activeDatabase) :
    getCurrentConnectionUri env st = (st.cachedConnectionUri, st, false) := by
  simp only [getCurrentConnectionUri, h1]
  rw [if_pos ⟨hSome, hId, hDb⟩]

/-- One getCurrentConnectionUri call whose cache check fails invokes the
connect collaborator. -/
theorem getCurrentConnectionUri_miss_connects (env : ConnEnv)
    (st : ConnState) (cid : String)
    (h1 : env.activeEditorConnectionId = some cid)
    (hmiss : ¬ (st.cachedConnectionUri.isSome = true ∧
      st.cachedConnectionId = some cid ∧
      st.cachedDatabase = env.activeDatabase)) :
    (getCurrentConnectionUri env st).2.2 = true := by
  simp only [getCurrentConnectionUri, h1]
  rw [if_neg hmiss]
  cases env.connectUri <;> rfl

/-- One getCurrentConnectionUri call whose cache check fails returns the
uri produced by the fresh connect, not the cached one. -/
theorem getCurrentConnectionUri_miss_result (env : ConnEnv)
    (st : ConnState) (cid2 u2 : String)
    (h1 : env.activeEditorConnectionId = some cid2)
    (hc : env.connectUri = some u2)
    (hmiss : ¬ (st.cachedConnectionUri.isSome = true ∧
      st.cachedConnectionId = some cid2 ∧
      st.cachedDatabase = env.activeDatabase)) :
    (getCurrentConnectionUri env st).1 = some u2 := by
  simp only [getCurrentConnectionUri, h1]
  rw [if_neg hmiss, hc]

/-! ## Claim theorems -/

/-- C9: for every object whose configured action is InsertName,
generateScript performs no backend scripting call (zero invocations of
the scripting collaborator) and returns exactly the qualified name
[schema].[name]. -/
theorem insertName_no_backend_call (env : ScriptingEnv)
    (o : DatabaseObjectItem)
    (h : env.actionForType o.type = ObjectAction.InsertName) :
    generateScript env o = ("[" ++ o.schema ++ "].[" ++ o.name ++ "]", 0) := by
  unfold generateScript
  rw [h]
  rfl

/-- C9 witness: a concrete table configured to InsertName yields the
qualified name and zero backend calls. -/
theorem insertName_no_backend_call_witness :
    generateScript
      ⟨fun _ => ObjectAction.InsertName, 1000, fun _ => Except.ok none⟩
      ⟨"Customers", "dbo", DatabaseObjectType.Table, none, none, none⟩
      = ("[dbo].[Customers]", 0) := by
  have h := insertName_no_backend_call
    ⟨fun _ => ObjectAction.InsertName, 1000, fun _ => Except.ok none⟩
    ⟨"Customers", "dbo", DatabaseObjectType.Table, none, none, none⟩ rfl
  exact h

/-- C2 counterexample: for the Select action on a concrete object, a
thrown backend error and an undefined backend result produce different
fallback script texts, refuting that all backend-call actions treat the
two cases identically. -/
theorem scripting_fallback_not_identical_counterexample :
    ¬ (generateSelectScript (Except.error "backend failure") 1000
        ⟨"Orders", "dbo", DatabaseObjectType.Table, none, none, none⟩
      = generateSelectScript (Except.ok none) 1000
        ⟨"Orders", "dbo", DatabaseObjectType.Table, none, none, none⟩) := by
  decide

/-- C2 amended: Execute and Alter produce the identical deterministic
fallback text on a thrown error and on an empty/undefined result, while
Select, Create and Delete each produce a deterministic but distinct
fallback text in the two cases; every case returns a fallback string, so
no hard failure surfaces from any strategy. -/
theorem scripting_fallback_policy (o : DatabaseObjectItem) (limit : Nat)
    (e : String) :
    generateExecuteScript (Except.error e) o
      = generateExecuteScript (Except.ok none) o ∧
    generateAlterScript (Except.error e) o
      = generateAlterScript (Except.ok none) o ∧
    generateSelectScript (Except.error e) limit o
      = "SELECT TOP " ++ toString limit ++ " *\nFROM "
          ++ getQualifiedName o ++ ";\n" ∧
    generateSelectScript (Except.ok none) limit o
      = "-- Could not generate SELECT script for " ++ getQualifiedName o
          ++ "\nSELECT * FROM " ++ getQualifiedName o ++ ";\n" ∧
    generateCreateScript (Except.error e) o
      = "-- Error generating CREATE script for " ++ getQualifiedName o
          ++ "\n" ∧
    generateCreateScript (Except.ok none) o
      = "-- Could not generate CREATE script for " ++ getQualifiedName o
          ++ "\n" ∧
    generateDeleteScript (Except.error e) o
      = "DELETE FROM " ++ getQualifiedName o
          ++ "\nWHERE\n  -- Specify condition;\n" ∧
    generateDeleteScript (Except.ok none) o
      = "-- Could not generate DELETE script for " ++ getQualifiedName o
          ++ "\n" := by
  exact ⟨rfl, rfl, rfl, rfl, rfl, rfl, rfl, rfl⟩

/-- C10: row transformation totally defaults missing fields: a missing
or empty SchemaName yields schema dbo, a missing ObjectName yields the
empty string as name, and the columns and definition fields of a freshly
fetched object are always absent. -/
theorem transformResult_total_defaults :
    (∀ (row : DatabaseObjectQueryResult) (db : Option String),
      row.SchemaName = none ∨ row.SchemaName = some "" →
      (transformResult row db).schema = "dbo") ∧
    (∀ (row : DatabaseObjectQueryResult) (db : Option String),
      row.ObjectName = none → (transformResult row db).name = "") ∧
    (∀ (row : DatabaseObjectQueryResult) (db : Option String),
      (transformResult row db).columns = none ∧
      (transformResult row db).definition = none) := by
  refine ⟨?_, ?_, ?_⟩
  · rintro row db (h | h) <;> simp [transformResult, jsOrString, h]
  · intro row db h
    simp [transformResult, jsOrString, h]
  · intro row db
    exact ⟨rfl, rfl⟩

/-- C10 witness: a fully missing row transforms into the defaulted
object. -/
theorem transformResult_total_defaults_witness :
    (transformResult ⟨none, none, none⟩ (some "db")).schema = "dbo" ∧
    (transformResult ⟨none, none, none⟩ (some "db")).name = "" := by
  exact ⟨transformResult_total_defaults.1 ⟨none, none, none⟩ (some "db")
      (Or.inl rfl),
    transformResult_total_defaults.2.1 ⟨none, none, none⟩ (some "db") rfl⟩

/-- C1 counterexample: with a fetch that returns an empty row set for
key D, the catalog cache stores nothing under D (not an empty sequence),
and a second getOrFetch without an intervening clear invokes the fetch
query again. -/
theorem empty_fetch_cached_counterexample :
    mapLookup (getOrFetchObjects [] "D" none
        (Except.ok (some []))).2.1 "D" = none ∧
    (getOrFetchObjects (getOrFetchObjects [] "D" none
        (Except.ok (some []))).2.1 "D" none
        (Except.ok (some []))).2.2 = true := by
  decide

/-- C1 amended: an empty (or undefined) bulk fetch result is returned as
an empty sequence but is not cached: the cache is left unchanged with no
entry under the key, so a second getOrFetch for the same key without an
intervening clear invokes the fetch query again. -/
theorem empty_fetch_not_cached (cache : CatalogCache) (key : String)
    (db : Option String)
    (fr : Except String (Option (List DatabaseObjectQueryResult)))
    (hMiss : mapLookup cache key = none)
    (hEmpty : fr = Except.ok none ∨ fr = Except.ok (some [])) :
    getOrFetchObjects cache key db fr = (Except.ok [], cache, true) ∧
    (getOrFetchObjects (getOrFetchObjects cache key db fr).2.1 key db
        fr).2.2 = true := by
  have h1 : getOrFetchObjects cache key db fr = (Except.ok [], cache, true) := by
    rcases hEmpty with h | h <;>
      simp [getOrFetchObjects, hMiss, h]
  refine ⟨h1, ?_⟩
  rw [h1]
  rcases hEmpty with h | h <;>
    simp [getOrFetchObjects, hMiss, h]

/-- C1 amended witness: concrete run with an empty fetch result. -/
theorem empty_fetch_not_cached_witness :
    getOrFetchObjects [] "mydb" (some "mydb") (Except.ok (some []))
      = (Except.ok [], [], true) := by
  exact (empty_fetch_not_cached [] "mydb" (some "mydb")
    (Except.ok (some [])) rfl (Or.inr rfl)).1

/-- C3 counterexample: when the fetch returns an undefined result, a
second getOrFetch with the same key and no intervening clear invokes the
fetch function a second time, refuting that the fetch is called exactly
once per key per cache lifetime. -/
theorem fetch_once_per_key_counterexample :
    (getOrFetchObjects [] "E" none (Except.ok none)).2.2 = true ∧
    (getOrFetchObjects (getOrFetchObjects [] "E" none
        (Except.ok none)).2.1 "E" none (Except.ok none)).2.2 = true := by
  decide

/-- C3 amended: provided the first fetch for key D returned a non-empty
row set (so a sequence was stored), a second getOrFetch with the same
key and no intervening clear returns the stored sequence verbatim and
does not invoke the fetch function; after a full cache clear, the next
getOrFetch for any key invokes the fetch function again.  (When the
fetch returned no rows, nothing is stored and the fetch is re-invoked on
the next call.) -/
theorem catalog_cache_once_per_key (cache : CatalogCache) (key : String)
    (db : Option String) (rows : List DatabaseObjectQueryResult)
    (fr2 fr3 : Except String (Option (List DatabaseObjectQueryResult)))
    (hrows : rows ≠ []) (hMiss : mapLookup cache key = none) :
    (getOrFetchObjects cache key db (Except.ok (some rows))).2.2 = true ∧
    (getOrFetchObjects cache key db (Except.ok (some rows))).1
      = Except.ok (rows.map (fun r => transformResult r db)) ∧
    getOrFetchObjects
        (getOrFetchObjects cache key db (Except.ok (some rows))).2.1 key
        db fr2
      = (Except.ok (rows.map (fun r => transformResult r db)),
          (getOrFetchObjects cache key db (Except.ok (some rows))).2.1,
          false) ∧
    (getOrFetchObjects [] key db fr3).2.2 = true := by
  have hne : rows.isEmpty = false := by
    simp [List.isEmpty_iff, hrows]
  have h1 : getOrFetchObjects cache key db (Except.ok (some rows))
      = (Except.ok (rows.map (fun r => transformResult r db)),
          mapSet cache key (rows.map (fun r => transformResult r db)),
          true) := by
    simp [getOrFetchObjects, hMiss, hne]
  refine ⟨by rw [h1], by rw [h1], ?_, ?_⟩
  · rw [h1]
    simp [getOrFetchObjects, mapLookup_mapSet]
  · cases fr3 with
    | error e => simp [getOrFetchObjects, mapLookup]
    | ok v =>
      cases v with
      | none => simp [getOrFetchObjects, mapLookup]
      | some rows3 =>
        by_cases h3 : rows3.isEmpty <;>
          simp [getOrFetchObjects, mapLookup, h3]

/-- C3 amended witness: one concrete non-empty fetch, then a cache hit,
then a fetch after clear. -/
theorem catalog_cache_once_per_key_witness :
    getOrFetchObjects
        (getOrFetchObjects [] "db1" (some "db1")
          (Except.ok (some [⟨some "dbo", some "T", some "USER_TABLE"⟩]))).2.1
        "db1" (some "db1") (Except.ok none)
      = (Except.ok [⟨"T", "dbo", DatabaseObjectType.Table, some "db1",
          none, none⟩],
          [("db1", [⟨"T", "dbo", DatabaseObjectType.Table, some "db1",
            none, none⟩])], false) := by
  have h := (catalog_cache_once_per_key [] "db1" (some "db1")
    [⟨some "dbo", some "T", some "USER_TABLE"⟩] (Except.ok none)
    (Except.ok none) (by decide) rfl).2.2.1
  rw [h]
  rfl

/-- C8: when the bulk column fetch fails (thrown error) or returns an
empty or undefined result, the column cache stores nothing for that
session key and enrichWithColumns returns the input objects unchanged;
since the cache entry stays absent, a subsequent enrichment request for
the same session attempts the fetch again. -/
theorem column_fetch_failure_retries (colCache : ColumnCache)
    (uri : String) (objects : List DatabaseObjectItem)
    (q : Except String (Option (List ColumnQueryResult)))
    (hTv : (objects.filter fun o =>
      o.type = DatabaseObjectType.Table ∨
        o.type = DatabaseObjectType.View).isEmpty = false)
    (hMiss : mapLookup colCache uri = none)
    (hFail : fetchColumns q = none) :
    enrichWithColumns colCache uri objects q = (objects, colCache, true) ∧
    ∀ q2, (enrichWithColumns
        (enrichWithColumns colCache uri objects q).2.1 uri objects
        q2).2.2 = true := by
  have h1 : enrichWithColumns colCache uri objects q
      = (objects, colCache, true) := by
    simp only [enrichWithColumns]
    rw [hTv, hMiss, hFail]
    rfl
  refine ⟨h1, ?_⟩
  intro q2
  rw [h1]
  simp only [enrichWithColumns]
  rw [hTv, hMiss]
  cases fetchColumns q2 with
  | none => rfl
  | some m => rfl

/-- C8 witness: a concrete table object, an empty cache and an
empty-result column query. -/
theorem column_fetch_failure_retries_witness :
    enrichWithColumns [] "uri1"
        [⟨"T", "dbo", DatabaseObjectType.Table, none, none, none⟩]
        (Except.ok none)
      = ([⟨"T", "dbo", DatabaseObjectType.Table, none, none, none⟩],
          [], true) := by
  exact (column_fetch_failure_retries [] "uri1"
    [⟨"T", "dbo", DatabaseObjectType.Table, none, none, none⟩]
    (Except.ok none) (by decide) rfl rfl).1

/-- C6: two consecutive getCurrentConnectionUri calls with an unchanged
(connection identity, active database) pair and a successful connect
collaborator return the same session uri and invoke the connect
collaborator at most once (the second call never connects); a change in
either component of the pair fails the cache check and triggers a fresh
connect. -/
theorem connection_cache_reuse_and_invalidation (env1 env2 : ConnEnv)
    (st0 : ConnState) (cid uri1 : String)
    (h1 : env1.activeEditorConnectionId = some cid)
    (h2 : env1.connectUri = some uri1) :
    (getCurrentConnectionUri env1
        (getCurrentConnectionUri env1 st0).2.1).1
      = (getCurrentConnectionUri env1 st0).1 ∧
    (getCurrentConnectionUri env1
        (getCurrentConnectionUri env1 st0).2.1).2.2 = false ∧
    (getCurrentConnectionUri env1
        (getCurrentConnectionUri env1 st0).2.1).2.1
      = (getCurrentConnectionUri env1 st0).2.1 ∧
    (∀ cid2, env2.activeEditorConnectionId = some cid2 →
      cid2 ≠ cid ∨ env2.activeDatabase ≠ env1.activeDatabase →
      (getCurrentConnectionUri env2
        (getCurrentConnectionUri env1 st0).2.1).2.2 = true) ∧
    (∀ cid2 u2, env2.activeEditorConnectionId = some cid2 →
      cid2 ≠ cid ∨ env2.activeDatabase ≠ env1.activeDatabase →
      env2.connectUri = some u2 →
      (getCurrentConnectionUri env2
        (getCurrentConnectionUri env1 st0).2.1).1 = some u2) := by
  obtain ⟨hSome, hId, hDb, hRes⟩ :=
    getCurrentConnectionUri_caches env1 st0 cid uri1 h1 h2
  have hhit := getCurrentConnectionUri_hit env1
    (getCurrentConnectionUri env1 st0).2.1 cid h1 hSome hId hDb
  have hstale : ∀ cid2, cid2 ≠ cid ∨
      env2.activeDatabase ≠ env1.activeDatabase →
      ¬ (((getCurrentConnectionUri env1 st0).2.1).cachedConnectionUri.isSome
          = true ∧
        ((getCurrentConnectionUri env1 st0).2.1).cachedConnectionId
          = some cid2 ∧
        ((getCurrentConnectionUri env1 st0).2.1).cachedDatabase
          = env2.activeDatabase) := by
    intro cid2 hchange
    rintro ⟨-, hid2, hdb2⟩
    rcases hchange with hne | hne
    · rw [hId] at hid2
      exact hne (Option.some.inj hid2.symm)
    · rw [hDb] at hdb2
      exact hne hdb2.symm
  refine ⟨?_, ?_, ?_, ?_, ?_⟩
  · rw [hhit, hRes]
  · rw [hhit]
  · rw [hhit]
  · intro cid2 hcid2 hchange
    exact getCurrentConnectionUri_miss_connects env2
      (getCurrentConnectionUri env1 st0).2.1 cid2 hcid2
      (hstale cid2 hchange)
  · intro cid2 u2 hcid2 hchange hc
    exact getCurrentConnectionUri_miss_result env2
      (getCurrentConnectionUri env1 st0).2.1 cid2 u2 hcid2 hc
      (hstale cid2 hchange)

/-- C6 witness: concrete environments exercising the cache hit and the
database-change invalidation. -/
theorem connection_cache_reuse_and_invalidation_witness :
    (getCurrentConnectionUri ⟨some "conn1", some "db1", some "uriA"⟩
        (getCurrentConnectionUri ⟨some "conn1", some "db1", some "uriA"⟩
          ⟨none, none, none, []⟩).2.1).2.2 = false ∧
    (getCurrentConnectionUri ⟨some "conn1", some "db2", some "uriB"⟩
        (getCurrentConnectionUri ⟨some "conn1", some "db1", some "uriA"⟩
          ⟨none, none, none, []⟩).2.1).2.2 = true := by
  have h := connection_cache_reuse_and_invalidation
    ⟨some "conn1", some "db1", some "uriA"⟩
    ⟨some "conn1", some "db2", some "uriB"⟩
    ⟨none, none, none, []⟩ "conn1" "uriA" rfl rfl
  exact ⟨h.2.1, h.2.2.2.1 "conn1" rfl (Or.inr (by decide))⟩

/-- C4: with an active connection and column enrichment off, for every
catalog and every search term that is non-empty after trimming, search
returns exactly the catalog objects whose name or schema contains the
term case-insensitively, in catalog order; in particular search "cust"
over a catalog dbo.Customers, dbo.Orders, sales.CustomerNotes returns
exactly dbo.Customers and sales.CustomerNotes in that order. -/
theorem search_filters_by_term :
    (∀ (env : SearchEnv) (cache0 : CatalogCache) (term uri : String)
        (db : Option String) (catalog : List DatabaseObjectItem),
      env.getUri = Except.ok (some uri) →
      env.getDb = Except.ok db →
      env.includeColumns = Except.ok false →
      mapLookup cache0 (cacheKeyOf db) = some catalog →
      jsTrim term ≠ "" →
      search env cache0 term false
        = (catalog.filter (matchesSearchTerm term), cache0, [])) ∧
    search ⟨Except.ok (some "uri"), Except.ok none,
        Except.ok (some [⟨some "dbo", some "Customers", some "USER_TABLE"⟩,
          ⟨some "dbo", some "Orders", some "USER_TABLE"⟩,
          ⟨some "sales", some "CustomerNotes", some "USER_TABLE"⟩]),
        Except.ok false, fun _ o => Except.ok o⟩ [] "cust" false
      = ([⟨"Customers", "dbo", DatabaseObjectType.Table, none, none, none⟩,
          ⟨"CustomerNotes", "sales", DatabaseObjectType.Table, none, none,
            none⟩],
          [("default",
            [⟨"Customers", "dbo", DatabaseObjectType.Table, none, none,
                none⟩,
              ⟨"Orders", "dbo", DatabaseObjectType.Table, none, none,
                none⟩,
              ⟨"CustomerNotes", "sales", DatabaseObjectType.Table, none,
                none, none⟩])], []) := by
  constructor
  · intro env cache0 term uri db catalog hUri hDb hCols hCat hTerm
    simp only [search, searchBody, hUri, hDb, hCols, getOrFetchObjects,
      Bool.false_eq_true, if_false, hCat]
    rw [if_neg hTerm]
  · decide

/-- C4 witness: the general filtering equation applied to a concrete
cached catalog. -/
theorem search_filters_by_term_witness :
    search ⟨Except.ok (some "u"), Except.ok (some "db1"),
        Except.error "not used", Except.ok false, fun _ o => Except.ok o⟩
        [("db1",
          [⟨"Customers", "dbo", DatabaseObjectType.Table, none, none,
            none⟩,
            ⟨"Orders", "dbo", DatabaseObjectType.Table, none, none,
              none⟩])]
        "cust" false
      = ([⟨"Customers", "dbo", DatabaseObjectType.Table, none, none,
          none⟩],
          [("db1",
            [⟨"Customers", "dbo", DatabaseObjectType.Table, none, none,
              none⟩,
              ⟨"Orders", "dbo", DatabaseObjectType.Table, none, none,
                none⟩])], []) := by
  have h := search_filters_by_term.1
    ⟨Except.ok (some "u"), Except.ok (some "db1"), Except.error "not used",
      Except.ok false, fun _ o => Except.ok o⟩
    [("db1",
      [⟨"Customers", "dbo", DatabaseObjectType.Table, none, none, none⟩,
        ⟨"Orders", "dbo", DatabaseObjectType.Table, none, none, none⟩])]
    "cust" "u" (some "db1")
    [⟨"Customers", "dbo", DatabaseObjectType.Table, none, none, none⟩,
      ⟨"Orders", "dbo", DatabaseObjectType.Table, none, none, none⟩]
    rfl rfl rfl (by decide) (by decide)
  rw [h]
  decide

/-- C7: search never propagates an exception: when no active session
exists it signals the no-connection condition and returns an empty
sequence, and a failure thrown by any collaborator step is caught at the
search boundary, surfaced as the handled-failure signal, and yields an
empty sequence. -/
theorem search_error_boundary (env : SearchEnv) (cache0 : CatalogCache)
    (term : String) (cc : Bool) :
    (env.getUri = Except.ok none →
      search env cache0 term cc
        = ([], cache0, [SearchEffect.noConnectionSignal])) ∧
    (∀ e, env.getUri = Except.error e →
      search env cache0 term cc
        = ([], cache0, [SearchEffect.searchFailedSignal])) ∧
    (∀ uri e, env.getUri = Except.ok (some uri) →
      env.getDb = Except.error e →
      search env cache0 term cc
        = ([], cache0, [SearchEffect.searchFailedSignal])) ∧
    (∀ uri db e, env.getUri = Except.ok (some uri) →
      env.getDb = Except.ok db → env.fetch = Except.error e →
      mapLookup (if cc then ([] : CatalogCache) else cache0)
        (cacheKeyOf db) = none →
      search env cache0 term cc
        = ([], if cc then [] else cache0,
            [SearchEffect.searchFailedSignal])) ∧
    (∀ c, searchBody env cache0 term cc = Except.error c →
      search env cache0 term cc
        = ([], c, [SearchEffect.searchFailedSignal])) := by
  refine ⟨?_, ?_, ?_, ?_, ?_⟩
  · intro h
    simp only [search, searchBody, h]
  · intro e h
    simp only [search, searchBody, h]
  · intro uri e hU hD
    simp only [search, searchBody, hU, hD]
  · intro uri db e hU hD hF hMiss
    simp only [search, searchBody, hU, hD, getOrFetchObjects, hMiss, hF]
  · intro c h
    simp only [search, h]

/-- C7 witness: the no-connection case and a thrown-fetch case at
concrete inputs. -/
theorem search_error_boundary_witness :
    search ⟨Except.ok none, Except.ok none, Except.ok none,
        Except.ok false, fun _ o => Except.ok o⟩ [] "t" false
      = ([], [], [SearchEffect.noConnectionSignal]) ∧
    search ⟨Except.ok (some "u"), Except.ok none, Except.error "boom",
        Except.ok false, fun _ o => Except.ok o⟩ [] "t" false
      = ([], [], [SearchEffect.searchFailedSignal]) := by
  constructor
  · exact (search_error_boundary
      ⟨Except.ok none, Except.ok none, Except.ok none, Except.ok false,
        fun _ o => Except.ok o⟩ [] "t" false).1 rfl
  · exact (search_error_boundary
      ⟨Except.ok (some "u"), Except.ok none, Except.error "boom",
        Except.ok false, fun _ o => Except.ok o⟩ [] "t" false).2.2.2.1
      "u" none "boom" rfl rfl rfl rfl

/-! ## Lemmas about the TOP-clause matcher -/

/-- takeWhile runs through a block that wholly satisfies the predicate. -/
theorem takeWhile_append_all (p : Char → Bool) (l1 l2 : List Char)
    (h : ∀ c ∈ l1, p c = true) :
    (l1 ++ l2).takeWhile p = l1 ++ l2.takeWhile p := by
  induction l1 with
  | nil => simp
  | cons a t ih =>
    have ha := h a (by simp)
    simp only [List.cons_append, List.takeWhile_cons, ha, if_true]
    rw [ih (fun c hc => h c (by simp [hc]))]

/-- dropWhile runs through a block that wholly satisfies the predicate. -/
theorem dropWhile_append_all (p : Char → Bool) (l1 l2 : List Char)
    (h : ∀ c ∈ l1, p c = true) :
    (l1 ++ l2).dropWhile p = l2.dropWhile p := by
  induction l1 with
  | nil => simp
  | cons a t ih =>
    have ha := h a (by simp)
    simp only [List.cons_append, List.dropWhile_cons, ha, if_true]
    exact ih (fun c hc => h c (by simp [hc]))

/-- If takeWhile keeps nothing, dropWhile drops nothing. -/
theorem dropWhile_eq_self_of_takeWhile_nil (p : Char → Bool)
    (l : List Char) (h : l.takeWhile p = []) : l.dropWhile p = l := by
  cases l with
  | nil => rfl
  | cons a t =>
    rw [List.takeWhile_cons] at h
    by_cases ha : p a
    · simp [ha] at h
    · simp [List.dropWhile_cons, ha]

/-- A regex-digit character is not a regex-whitespace character and is
not a parenthesis. -/
theorem digit_char_facts (c : Char) (h : isDigitChar c = true) :
    isWsChar c = false ∧ c ≠ '(' := by
  have hval : 48 ≤ c.val ∧ c.val ≤ 57 := by
    simpa [isDigitChar, Char.isDigit, Bool.and_eq_true,
      decide_eq_true_iff] using h
  have h1 : c ≠ ' ' := by rintro rfl; revert hval; decide
  have h2 : c ≠ '\t' := by rintro rfl; revert hval; decide
  have h3 : c ≠ '\n' := by rintro rfl; revert hval; decide
  have h4 : c ≠ '\r' := by rintro rfl; revert hval; decide
  have h5 : c ≠ '\x0b' := by rintro rfl; revert hval; decide
  have h6 : c ≠ '\x0c' := by rintro rfl; revert hval; decide
  have h7 : c ≠ '(' := by rintro rfl; revert hval; decide
  refine ⟨?_, h7⟩
  simp [isWsChar, h1, h2, h3, h4, h5, h6]

/-- The parenthesized alternative consumes an all-digit run between the
parentheses. -/
theorem matchNumAfterTop_paren (ds rest2 : List Char) (hne : ds ≠ [])
    (hdig : ∀ c ∈ ds, isDigitChar c = true) :
    matchNumAfterTop ('(' :: (ds ++ (')' :: rest2))) = some rest2 := by
  obtain ⟨d, ds2, rfl⟩ := List.exists_cons_of_ne_nil hne
  have hd := digit_char_facts d (hdig d (by simp))
  have hdigs2 : ∀ c ∈ ds2, isDigitChar c = true :=
    fun c hc => hdig c (by simp [hc])
  have hdigP : isDigitChar ')' = false := by decide
  have hwsP : isWsChar ')' = false := by decide
  simp only [matchNumAfterTop, List.head?_cons, List.cons_append]
  rw [List.dropWhile_cons_of_neg (by simp [hd.1])]
  rw [List.takeWhile_cons_of_pos (hdig d (by simp))]
  rw [List.dropWhile_cons_of_pos (hdig d (by simp))]
  rw [takeWhile_append_all isDigitChar ds2 (')' :: rest2) hdigs2]
  rw [dropWhile_append_all isDigitChar ds2 (')' :: rest2) hdigs2]
  rw [List.takeWhile_cons_of_neg (by simp [hdigP])]
  rw [List.dropWhile_cons_of_neg (by simp [hdigP])]
  rw [List.dropWhile_cons_of_neg (by simp [hwsP])]
  simp

/-- The bare alternative consumes a leading all-digit run. -/
theorem matchNumAfterTop_bare (ds : List Char) (c2 : Char)
    (rest2 : List Char) (hne : ds ≠ [])
    (hdig : ∀ c ∈ ds, isDigitChar c = true)
    (hc2 : isDigitChar c2 = false) :
    matchNumAfterTop (ds ++ (c2 :: rest2)) = some (c2 :: rest2) := by
  obtain ⟨d, ds2, rfl⟩ := List.exists_cons_of_ne_nil hne
  have hd := digit_char_facts d (hdig d (by simp))
  have hdigs2 : ∀ c ∈ ds2, isDigitChar c = true :=
    fun c hc => hdig c (by simp [hc])
  simp only [matchNumAfterTop, List.cons_append, List.head?_cons]
  rw [if_neg (by simpa using hd.2)]
  rw [List.takeWhile_cons_of_pos (hdig d (by simp))]
  rw [List.dropWhile_cons_of_pos (hdig d (by simp))]
  rw [takeWhile_append_all isDigitChar ds2 (c2 :: rest2) hdigs2]
  rw [dropWhile_append_all isDigitChar ds2 (c2 :: rest2) hdigs2]
  rw [List.takeWhile_cons_of_neg (by simp [hc2])]
  rw [List.dropWhile_cons_of_neg (by simp [hc2])]
  simp

/-- The data of a built string is its character list. -/
theorem data_mk (l : List Char) : (String.mk l).data = l := rfl

/-- The SELECT-TOP regex matches at the head of a script that starts
with the literal SELECT TOP followed by a numeric clause. -/
theorem matchSelTopAt_top (x r : List Char)
    (h : matchNumAfterTop (x.dropWhile isWsChar) = some r) :
    matchSelTopAt ("SELECT TOP ".data ++ x) = some ("SELECT ".data, r) := by
  have h1 : ciMatch "select".data ("SELECT TOP ".data ++ x)
      = some ("SELECT".data, " TOP ".data ++ x) := rfl
  have h2 : (" TOP ".data ++ x).takeWhile isWsChar = [' '] := rfl
  have h3 : (" TOP ".data ++ x).dropWhile isWsChar
      = 'T' :: 'O' :: 'P' :: ' ' :: x := rfl
  have h4 : ciMatch "top".data ('T' :: 'O' :: 'P' :: ' ' :: x)
      = some ("TOP".data, ' ' :: x) := rfl
  have h5 : (' ' :: x).dropWhile isWsChar = x.dropWhile isWsChar := by
    rw [List.dropWhile_cons_of_pos (by decide)]
  simp only [matchSelTopAt, h1, h2, h3, h4, h5, h, List.isEmpty_cons,
    Bool.false_eq_true, if_false]
  rfl

/-- A head match makes the regex test succeed. -/
theorem testSelTop_of_match (l g r : List Char)
    (h : matchSelTopAt l = some (g, r)) : testSelTop l = true := by
  cases l with
  | nil => exact Option.noConfusion h
  | cons c cs => simp [testSelTop, h]

/-- A head match makes replace substitute at the head. -/
theorem replaceSelTop_of_match (l g r rep : List Char)
    (h : matchSelTopAt l = some (g, r)) :
    replaceSelTop l rep = g ++ rep ++ r := by
  cases l with
  | nil => exact Option.noConfusion h
  | cons c cs => simp [replaceSelTop, h]

/-- ensureTopClause on a script headed by SELECT TOP and a numeric
clause replaces the clause with the configured limit. -/
theorem ensureTopClause_replaces (x r : List Char) (limit : Nat)
    (h : matchNumAfterTop (x.dropWhile isWsChar) = some r) :
    ensureTopClause (String.mk ("SELECT TOP ".data ++ x)) limit
      = String.mk ("SELECT TOP ".data ++ ((toString limit).data ++ r)) := by
  have hm := matchSelTopAt_top x r h
  simp only [ensureTopClause, data_mk]
  rw [testSelTop_of_match _ _ _ hm, if_pos rfl]
  rw [replaceSelTop_of_match _ _ _ _ hm]
  apply congrArg
  rw [String.data_append]
  simp only [List.append_assoc]
  rfl

/-- The anchored leading-SELECT regex captures the keyword and one
space when no further whitespace follows. -/
theorem matchLeadSelect_select (tail : List Char)
    (hWs : tail.takeWhile isWsChar = []) :
    matchLeadSelect ("SELECT ".data ++ tail)
      = some ("SELECT ".data, tail) := by
  have h0 : ("SELECT ".data ++ tail).takeWhile isWsChar = [] := rfl
  have h0b : ("SELECT ".data ++ tail).dropWhile isWsChar
      = "SELECT ".data ++ tail := rfl
  have h1 : ciMatch "select".data ("SELECT ".data ++ tail)
      = some ("SELECT".data, ' ' :: tail) := rfl
  have h2 : (' ' :: tail).takeWhile isWsChar
      = ' ' :: tail.takeWhile isWsChar := by
    rw [List.takeWhile_cons_of_pos (by decide)]
  have h3 : (' ' :: tail).dropWhile isWsChar = tail.dropWhile isWsChar := by
    rw [List.dropWhile_cons_of_pos (by decide)]
  simp only [matchLeadSelect, h0, h0b, h1, h2, h3, hWs,
    dropWhile_eq_self_of_takeWhile_nil isWsChar tail hWs,
    List.isEmpty_cons, Bool.false_eq_true, if_false]
  rfl

/-- C5: the row-limit rewrite replaces an existing parenthesized or bare
numeric TOP clause with the configured limit, and otherwise injects a
TOP clause immediately after the leading SELECT keyword, leaving the
surrounding clauses untouched; in particular with limit 1000 the script
SELECT TOP (50) * FROM [dbo].[T] becomes SELECT TOP 1000 * FROM
[dbo].[T], and SELECT * FROM [dbo].[T] becomes SELECT TOP 1000 * FROM
[dbo].[T]. -/
theorem ensureTopClause_rewrite_or_inject :
    (∀ (limit : Nat) (ds tail : List Char), ds ≠ [] →
      (∀ c ∈ ds, isDigitChar c = true) →
      ensureTopClause
          (String.mk ("SELECT TOP (".data ++ (ds ++ (") ".data ++ tail))))
          limit
        = String.mk ("SELECT TOP ".data
            ++ ((toString limit).data ++ (' ' :: tail)))) ∧
    (∀ (limit : Nat) (ds tail : List Char), ds ≠ [] →
      (∀ c ∈ ds, isDigitChar c = true) →
      ensureTopClause
          (String.mk ("SELECT TOP ".data ++ (ds ++ (' ' :: tail)))) limit
        = String.mk ("SELECT TOP ".data
            ++ ((toString limit).data ++ (' ' :: tail)))) ∧
    (∀ (limit : Nat) (tail : List Char),
      testSelTop ("SELECT ".data ++ tail) = false →
      tail.takeWhile isWsChar = [] →
      ensureTopClause (String.mk ("SELECT ".data ++ tail)) limit
        = String.mk ("SELECT TOP ".data
            ++ ((toString limit).data ++ (' ' :: tail)))) ∧
    ensureTopClause "SELECT TOP (50) * FROM [dbo].[T]" 1000
      = "SELECT TOP 1000 * FROM [dbo].[T]" ∧
    ensureTopClause "SELECT * FROM [dbo].[T]" 1000
      = "SELECT TOP 1000 * FROM [dbo].[T]" := by
  refine ⟨?_, ?_, ?_, by decide, by decide⟩
  · intro limit ds tail hne hdig
    have hm : matchNumAfterTop
        (('(' :: (ds ++ (')' :: (' ' :: tail)))).dropWhile isWsChar)
        = some (' ' :: tail) := by
      rw [List.dropWhile_cons_of_neg (by decide)]
      exact matchNumAfterTop_paren ds (' ' :: tail) hne hdig
    exact ensureTopClause_replaces
      ('(' :: (ds ++ (')' :: (' ' :: tail)))) (' ' :: tail) limit hm
  · intro limit ds tail hne hdig
    obtain ⟨d, ds2, rfl⟩ := List.exists_cons_of_ne_nil hne
    have hd := digit_char_facts d (hdig d (by simp))
    have hm : matchNumAfterTop
        (((d :: ds2) ++ (' ' :: tail)).dropWhile isWsChar)
        = some (' ' :: tail) := by
      rw [List.cons_append, List.dropWhile_cons_of_neg (by simp [hd.1])]
      exact matchNumAfterTop_bare (d :: ds2) ' ' tail (by simp) hdig
        (by decide)
    exact ensureTopClause_replaces ((d :: ds2) ++ (' ' :: tail))
      (' ' :: tail) limit hm
  · intro limit tail hNoTop hWs
    simp only [ensureTopClause, data_mk, hNoTop, Bool.false_eq_true,
      if_false, matchLeadSelect_select tail hWs]
    apply congrArg
    rw [String.data_append, String.data_append]
    simp only [List.append_assoc]
    rfl

/-- C5 witness: the replace and inject equations applied at concrete
inputs with limit 77. -/
theorem ensureTopClause_rewrite_or_inject_witness :
    ensureTopClause
        (String.mk ("SELECT TOP (".data
          ++ (['5', '0'] ++ (") ".data ++ "* FROM [dbo].[T]".data)))) 77
      = String.mk ("SELECT TOP ".data
          ++ ((toString 77).data ++ (' ' :: "* FROM [dbo].[T]".data))) ∧
    ensureTopClause
        (String.mk ("SELECT ".data ++ "* FROM [dbo].[T]".data)) 77
      = String.mk ("SELECT TOP ".data
          ++ ((toString 77).data ++ (' ' :: "* FROM [dbo].[T]".data))) := by
  refine ⟨?_, ?_⟩
  · exact ensureTopClause_rewrite_or_inject.1 77 ['5', '0']
      "* FROM [dbo].[T]".data (by decide) (by decide)
  · exact ensureTopClause_rewrite_or_inject.2.2.1 77
      "* FROM [dbo].[T]".data (by decide) (by decide)
